import Mathlib

/-!
Verification development for the CryptoSentinel prediction service
(`app/predictor.py`, `app/drift_detection.py`, `app/config.py`).

The Python code is shallowly embedded: prices, percentages and confidences
are modelled as rationals (`ℚ`), millisecond timestamps as integers cast to
`ℚ` where the code mixes them with fractional seconds, JSON-serialisable
record dictionaries as Lean structures with `Option` fields for keys that
may be absent or hold `None`, and the bounded `deque(maxlen=50)` as a list
together with capacity-respecting append/extend operations.
-/

namespace CryptoSentinel

/-- Python `round(q, n)` on rationals: round half to even at `n` decimal
digits.  `rnd` is the integer-valued rounding of a single rational. -/
def rnd (q : ℚ) : ℤ :=
  if q - ⌊q⌋ < 1/2 then ⌊q⌋
  else if 1/2 < q - ⌊q⌋ then ⌊q⌋ + 1
  else if ⌊q⌋ % 2 = 0 then ⌊q⌋ else ⌊q⌋ + 1

/-- Python `round(q, n)`: `rnd` applied at `n` decimal digits. -/
def pyRound (q : ℚ) (n : ℕ) : ℚ := (rnd (q * 10 ^ n) : ℚ) / 10 ^ n

/-- `settings.PREDICTION_MINUTES` (`app/config.py`, default 30). -/
def settings_PREDICTION_MINUTES : ℚ := 30

/-- `settings.DIRECTION_TOLERANCE_PCT` (`app/config.py`, default 0.1). -/
abbrev settings_DIRECTION_TOLERANCE_PCT : ℚ := 1/10

/-- `settings.DRIFT_THRESHOLD` (`app/config.py`, default 0.3). -/
abbrev settings_DRIFT_THRESHOLD : ℚ := 3/10

/-- The `deque(maxlen=50)` capacity of `prediction_history`
(`app/predictor.py` line 33). -/
def prediction_history_maxlen : ℕ := 50

/-- A prediction-ledger record as stored in `prediction_history`:
the fields of the dict built by `generate_prediction` and
`_store_prediction` that the validation and accuracy code reads or
writes.  `Option` encodes a key that is absent or maps to `None`
(`validation_note` is only added when a record is validated).
`validated_at` stores the wall-clock time `now` that the code formats
with `isoformat()`. -/
structure Entry where
  timestamp : String
  target_timestamp_ms : Option ℤ
  current_price : ℚ
  predicted_price : ℚ
  predicted_direction : String
  confidence : ℚ
  actual_price : Option ℚ
  was_correct : Option Bool
  error_amount : Option ℚ
  validated_at : Option ℚ
  validation_note : Option String
  deriving DecidableEq, Repr

/-- One `deque.append` on a deque of capacity `c`: the new element goes to
the right and, when the deque is full, the oldest (leftmost) element is
evicted. -/
def dequeAppend (c : ℕ) (l : List α) (x : α) : List α :=
  let l2 := l ++ [x]
  l2.drop (l2.length - c)

/-- `deque.extend`: append each element in turn. -/
def dequeExtend (c : ℕ) (l : List α) (xs : List α) : List α :=
  xs.foldl (dequeAppend c) l

/-- The last `c` elements of a list (Python `l[-c:]`). -/
def takeLast (c : ℕ) (l : List α) : List α := l.drop (l.length - c)

/-- `_save_predictions_to_file` (`app/predictor.py` lines 223-230): the JSON
array written to `predictions_history.json` is `list(prediction_history)`.
JSON serialisation of these records is modelled as the identity on the
record sequence (`json.dump`/`json.load` are mutually inverse on them). -/
def save_predictions_to_file (l : List Entry) : List Entry := l

/-- `_load_predictions_from_file` (`app/predictor.py` lines 254-259)
rehydrating an empty ledger: `prediction_history.extend(data[-50:])` on a
fresh `deque(maxlen=50)`. -/
def load_predictions_from_file (data : List Entry) : List Entry :=
  dequeExtend prediction_history_maxlen [] (takeLast prediction_history_maxlen data)

/-- Lines 317-334 of `validate_predictions`: stamp a pending entry with the
realized price `actual`, the validation time `now`, the absolute prediction
error, and the tolerance-gated direction verdict. -/
def applyValidation (now tol actual : ℚ) (e : Entry) : Entry :=
  let change := actual - e.current_price
  let pct := |change / e.current_price * 100|
  let e1 : Entry :=
    { e with actual_price := some (pyRound actual 2)
             validated_at := some now
             error_amount := some (pyRound |e.predicted_price - actual| 2) }
  if pct < tol then
    { e1 with was_correct := some false
              validation_note := some "price_within_tolerance" }
  else
    let adir := if change > 0 then "up" else "down"
    { e1 with was_correct := some (decide (adir = e.predicted_direction))
              validation_note := some "direction_validated" }

/-- Lines 289-298 of `validate_predictions`: when `target_timestamp_ms` is
absent (or falsy, i.e. `0`), recompute the target from the parsed creation
timestamp plus the prediction horizon.  `parse` abstracts the
`datetime.fromisoformat` chain and returns seconds since the epoch, or
`none` when every parse attempt fails (in which case the record is
skipped). -/
def recomputeTarget (parse : String → Option ℚ) (ts : String) : Option ℚ :=
  (parse ts).map (fun p => (p + settings_PREDICTION_MINUTES * 60) * 1000)

/-- The dict comprehension `{p["timestamp"]: p["price"] for p in price_history}`
(line 276): last write wins per key, keys keep first-insertion order. -/
def buildPriceDict (h : List (ℤ × ℚ)) : List (ℤ × ℚ) :=
  h.foldl (fun acc p =>
    if acc.any (fun q => q.1 = p.1) then
      acc.map (fun q => if q.1 = p.1 then (q.1, p.2) else q)
    else acc ++ [p]) []

/-- The body of the `for entry in prediction_history` loop of
`validate_predictions` (lines 283-334) acting on one entry: skip validated
entries; determine the target timestamp (in ms); look for the first price
point within ±5 minutes of it; otherwise fall back to `cp`
(the `current_price` argument) when `now` has reached the target time;
otherwise leave the entry pending. -/
def processEntry (priceDict : List (ℤ × ℚ)) (cp : Option ℚ) (now tol : ℚ)
    (parse : String → Option ℚ) (e : Entry) : Entry :=
  if e.was_correct ≠ none then e
  else
    let tms : Option ℚ :=
      match e.target_timestamp_ms with
      | some t => if t = 0 then recomputeTarget parse e.timestamp else some (t : ℚ)
      | none => recomputeTarget parse e.timestamp
    match tms with
    | none => e
    | some t =>
      let matched : Option ℚ :=
        (priceDict.find? (fun q => |(q.1 : ℚ) - t| ≤ 5 * 60 * 1000)).map (fun q => q.2)
      let actual : Option ℚ :=
        match matched with
        | some a => some a
        | none => if now ≥ t / 1000 then cp else none
      match actual with
      | none => e
      | some a => applyValidation now tol a e

/-- `validate_predictions` (`app/predictor.py` lines 265-343).  `fetched`
is the result of `fetch_price_history`: `none` models the call raising, in
which case the pass returns immediately unless a fallback `cp` was given,
and then proceeds with an empty price dict. -/
def validate_predictions (fetched : Option (List (ℤ × ℚ))) (cp : Option ℚ)
    (now tol : ℚ) (parse : String → Option ℚ) (l : List Entry) : List Entry :=
  match fetched with
  | some hist => l.map (processEntry (buildPriceDict hist) cp now tol parse)
  | none =>
    match cp with
    | none => l
    | some _ => l.map (processEntry [] cp now tol parse)

/-- `get_prediction_history` (`app/predictor.py` line 346): the ledger
snapshot as a list. -/
def get_prediction_history (l : List Entry) : List Entry := l

/-- The dict returned by `get_prediction_accuracy`.  `correct_count` and
`avg_error` are `Option`s because the early return on an empty validated
set omits those keys; the inner `Option` of `avg_error` is `none` when
`np.mean` of an empty list produces NaN. -/
structure AccuracyStats where
  accuracy : ℚ
  total_predictions : ℕ
  validated_count : ℕ
  correct_count : Option ℕ
  avg_error : Option (Option ℚ)
  deriving DecidableEq, Repr

/-- `get_prediction_accuracy` (`app/predictor.py` lines 351-368).
Note the filter `if p["error_amount"]` is Python truthiness: it drops
entries whose `error_amount` is `None` or `0`. -/
def get_prediction_accuracy (l : List Entry) : AccuracyStats :=
  let validated := l.filter (fun p => p.was_correct.isSome)
  if validated.isEmpty then
    { accuracy := 0, total_predictions := 0, validated_count := 0,
      correct_count := none, avg_error := none }
  else
    let correct := (validated.filter (fun p => p.was_correct = some true)).length
    let errs := validated.filterMap (fun p =>
      match p.error_amount with
      | some err => if err = 0 then none else some err
      | none => none)
    { accuracy := pyRound ((correct : ℚ) / validated.length * 100) 1,
      total_predictions := l.length,
      validated_count := validated.length,
      correct_count := some correct,
      avg_error := some (if errs.isEmpty then none
                         else some (pyRound (errs.sum / errs.length) 2)) }

/-- Line 152 of `generate_prediction`:
`direction = "up" if predicted_price > current_price else "down"`. -/
def predDirection (predicted current : ℚ) : String :=
  if predicted > current then "up" else "down"

/-- Lines 153-154 of `generate_prediction`: the price-based confidence
`min(95, 50 + price_diff_pct * 10)` with
`price_diff_pct = abs(predicted - current) / current * 100`. -/
def priceConfidence (predicted current : ℚ) : ℚ :=
  min 95 (50 + |predicted - current| / current * 100 * 10)

/-- Lines 155-170 of `generate_prediction`: the classifier's confidence is
adopted only when its direction string equals the price-based direction and
its confidence is strictly higher; the direction itself is never
reassigned. -/
def combineConfidence (conf : ℚ) (dir cdir : String) (cconf : ℚ) : ℚ :=
  if cdir = dir ∧ cconf > conf then cconf else conf

/-- The `confidence` field stored by `generate_prediction` (line 191,
`round(confidence, 1)`): price-based confidence, possibly upgraded by a
classifier modelled as its direction string and probability-derived
confidence `max(predict_proba)*100`. -/
def genConfidence (predicted current : ℚ) (classifier : Option (String × ℚ)) : ℚ :=
  match classifier with
  | none => pyRound (priceConfidence predicted current) 1
  | some (cdir, cconf) =>
    pyRound (combineConfidence (priceConfidence predicted current)
      (predDirection predicted current) cdir cconf) 1

/-- The `predicted_direction` field stored by `generate_prediction`
(line 190): the classifier never overrides the price-based direction. -/
def genDirection (predicted current : ℚ) (_classifier : Option (String × ℚ)) : String :=
  predDirection predicted current

/-- One row of the `feature_drifts` dict built by
`_simple_drift_detection`. -/
structure FeatureDrift where
  statistic : ℚ
  p_value : ℚ
  drifted : Bool
  deriving DecidableEq, Repr

/-- The report dict built by `_simple_drift_detection`
(`method`/`timestamp` metadata omitted). -/
structure DriftReport where
  drift_detected : Bool
  drift_score : ℚ
  threshold : ℚ
  feature_drifts : List (String × FeatureDrift)
  deriving DecidableEq, Repr

/-- `_simple_drift_detection` (`app/drift_detection.py` lines 75-114) with
a reference frame set (the `None`-reference early return at line 80 is
outside the claimed fallback path).  Data frames are modelled as maps from
column name to the column's non-null values (`none` = column absent;
`dropna` already applied), and `ks` abstracts `scipy.stats.ks_2samp`,
returning `(statistic, p_value)`.  Per tested column `drifted = p < 0.05`;
`total` accumulates statistics of tested columns only, but the average
divides by the number of *requested* columns.  `testedColumns` is the
per-column loop body (lines 88-100): a column is tested when it is present
in both frames with non-empty value lists. -/
def testedColumns (ks : List ℚ → List ℚ → ℚ × ℚ)
    (refData curData : String → Option (List ℚ))
    (cols : List String) : List (String × FeatureDrift) :=
  cols.filterMap (fun c =>
    match refData c, curData c with
    | some rv, some cv =>
      if rv.length > 0 ∧ cv.length > 0 then
        let r := ks rv cv
        some (c, { statistic := r.1, p_value := r.2, drifted := decide (r.2 < 5/100) })
      else none
    | _, _ => none)

/-- The report assembly of `_simple_drift_detection`
(`app/drift_detection.py` lines 102-114). -/
def simple_drift_detection (ks : List ℚ → List ℚ → ℚ × ℚ)
    (refData curData : String → Option (List ℚ)) (threshold : ℚ)
    (cols : List String) : DriftReport :=
  let tested := testedColumns ks refData curData cols
  let total := (tested.map (fun p => p.2.statistic)).sum
  let avg := if cols.isEmpty then 0 else total / (cols.length : ℚ)
  { drift_detected := decide (avg > threshold),
    drift_score := avg,
    threshold := threshold,
    feature_drifts := tested }

/-- A never-validated ledger record, as `_store_prediction` creates it. -/
def pendingEntry : Entry :=
  { timestamp := "2025-01-01T00:00:00"
    target_timestamp_ms := some 1735693800000
    current_price := 100
    predicted_price := 101
    predicted_direction := "up"
    confidence := 60
    actual_price := none
    was_correct := none
    error_amount := none
    validated_at := none
    validation_note := none }

/-- A validated record whose absolute error is zero (a perfect price
call). -/
def validatedZeroErrEntry : Entry :=
  { timestamp := "2025-01-01T00:00:00"
    target_timestamp_ms := some 1735693800000
    current_price := 100
    predicted_price := 101
    predicted_direction := "up"
    confidence := 60
    actual_price := some 101
    was_correct := some true
    error_amount := some 0
    validated_at := some 1735693801
    validation_note := some "direction_validated" }

/-- A validated record with absolute error 10. -/
def validatedTenErrEntry : Entry :=
  { timestamp := "2025-01-01T00:05:00"
    target_timestamp_ms := some 1735694100000
    current_price := 100
    predicted_price := 92
    predicted_direction := "down"
    confidence := 60
    actual_price := some 102
    was_correct := some false
    error_amount := some 10
    validated_at := some 1735694101
    validation_note := some "direction_validated" }

/-! ### Rounding lemmas -/

theorem floor_le_rnd (q : ℚ) : ⌊q⌋ ≤ rnd q := by
  unfold rnd
  split_ifs <;> omega

theorem rnd_le_of_le (q : ℚ) (n : ℤ) (h : q ≤ n) : rnd q ≤ n := by
  have hf : ⌊q⌋ ≤ n := by
    have := Int.floor_mono h
    simpa using this
  have hfl : (⌊q⌋ : ℚ) ≤ q := Int.floor_le q
  unfold rnd
  split_ifs with h1 h2 h3
  · exact hf
  · have hlt : (⌊q⌋ : ℚ) + 1/2 < q := by linarith
    have : (⌊q⌋ : ℚ) < (n : ℚ) := by linarith
    have : ⌊q⌋ < n := by exact_mod_cast this
    omega
  · exact hf
  · have h2' : (1:ℚ)/2 ≤ q - ⌊q⌋ := le_of_not_lt h1
    have : (⌊q⌋ : ℚ) < (n : ℚ) := by linarith
    have : ⌊q⌋ < n := by exact_mod_cast this
    omega

theorem le_rnd_of_le (q : ℚ) (n : ℤ) (h : (n : ℚ) ≤ q) : n ≤ rnd q := by
  have : n ≤ ⌊q⌋ := Int.le_floor.mpr h
  exact le_trans this (floor_le_rnd q)

theorem pyRound_le_of_le (q : ℚ) (m : ℕ) (n : ℤ) (h : q ≤ n) :
    pyRound q m ≤ n := by
  have hp : (0:ℚ) < 10 ^ m := by positivity
  have h1 : q * 10 ^ m ≤ ((n * 10 ^ m : ℤ) : ℚ) := by
    push_cast
    exact mul_le_mul_of_nonneg_right h (le_of_lt hp)
  have h2 : rnd (q * 10 ^ m) ≤ n * 10 ^ m := rnd_le_of_le _ _ h1
  have h3 : ((rnd (q * 10 ^ m) : ℚ)) ≤ ((n : ℚ) * 10 ^ m) := by
    exact_mod_cast h2
  unfold pyRound
  rw [div_le_iff₀ hp]
  exact h3

theorem le_pyRound_of_le (q : ℚ) (m : ℕ) (n : ℤ) (h : (n : ℚ) ≤ q) :
    (n : ℚ) ≤ pyRound q m := by
  have hp : (0:ℚ) < 10 ^ m := by positivity
  have h1 : ((n * 10 ^ m : ℤ) : ℚ) ≤ q * 10 ^ m := by
    push_cast
    exact mul_le_mul_of_nonneg_right h (le_of_lt hp)
  have h2 : n * 10 ^ m ≤ rnd (q * 10 ^ m) := le_rnd_of_le _ _ h1
  have h3 : ((n : ℚ) * 10 ^ m) ≤ ((rnd (q * 10 ^ m) : ℚ)) := by
    exact_mod_cast h2
  unfold pyRound
  rw [le_div_iff₀ hp]
  exact h3

/-! ### Deque lemmas -/

theorem dequeAppend_eq_takeLast (c : ℕ) (l : List α) (x : α) :
    dequeAppend c l x = takeLast c (l ++ [x]) := rfl

theorem takeLast_takeLast_append (c : ℕ) (s t : List α) :
    takeLast c (takeLast c s ++ t) = takeLast c (s ++ t) := by
  unfold takeLast
  rw [← List.drop_append_of_le_length (Nat.sub_le s.length c), List.drop_drop]
  congr 1
  simp only [List.length_drop, List.length_append]
  omega

theorem dequeExtend_takeLast (c : ℕ) (s xs : List α) :
    dequeExtend c (takeLast c s) xs = takeLast c (s ++ xs) := by
  induction xs generalizing s with
  | nil => simp [dequeExtend]
  | cons x xs ih =>
    have h1 : dequeExtend c (takeLast c s) (x :: xs)
        = dequeExtend c (dequeAppend c (takeLast c s) x) xs := rfl
    rw [h1, dequeAppend_eq_takeLast, takeLast_takeLast_append, ih (s ++ [x])]
    simp

/-- C3: appending `n` records into an initially empty deque of capacity `c`
leaves exactly the last `min(n, c)` appended records, oldest first evicted,
in insertion order; in particular capacity 3 with five appends keeps the
last three. -/
theorem bounded_ledger_keeps_last_capacity (α : Type) (c : ℕ) (xs : List α)
    (r1 r2 r3 r4 r5 : α) :
    dequeExtend c [] xs = xs.drop (xs.length - c)
    ∧ (dequeExtend c [] xs).length = min c xs.length
    ∧ dequeExtend 3 ([] : List α) [r1, r2, r3, r4, r5] = [r3, r4, r5] := by
  have hmain : ∀ (ys : List α), dequeExtend c [] ys = ys.drop (ys.length - c) := by
    intro ys
    have h := dequeExtend_takeLast c [] ys
    simpa [takeLast] using h
  refine ⟨hmain xs, ?_, ?_⟩
  · rw [hmain xs, List.length_drop]
    omega
  · have h := dequeExtend_takeLast 3 ([] : List α) [r1, r2, r3, r4, r5]
    simpa [takeLast] using h

/-- C9: persisting a ledger snapshot of at most `maxlen` records to the
predictions file and rehydrating an empty ledger from it restores the
identical ordered record sequence. -/
theorem persist_rehydrate_roundtrip (l : List Entry)
    (h : l.length ≤ prediction_history_maxlen) :
    load_predictions_from_file (save_predictions_to_file l) = l := by
  unfold load_predictions_from_file save_predictions_to_file
  have h1 : takeLast prediction_history_maxlen l = l := by
    unfold takeLast
    have h0 : l.length - prediction_history_maxlen = 0 := by omega
    rw [h0]
    rfl
  rw [h1]
  have h2 := dequeExtend_takeLast prediction_history_maxlen [] l
  have h3 : takeLast prediction_history_maxlen ([] : List Entry) = [] := rfl
  rw [h3] at h2
  rw [h2]
  simpa using h1

/-- Witness for C9 at a one-record ledger. -/
theorem persist_rehydrate_roundtrip_witness :
    [pendingEntry].length ≤ prediction_history_maxlen
    ∧ load_predictions_from_file (save_predictions_to_file [pendingEntry])
        = [pendingEntry] :=
  ⟨by decide, persist_rehydrate_roundtrip [pendingEntry] (by decide)⟩

/-! ### Validation classification -/

/-- C1: for a record validated against realized price `actual`: if
`abs((actual - price_at_creation) / price_at_creation) * 100` is strictly
below the tolerance, `was_correct` is `false` with note
`price_within_tolerance` regardless of direction; otherwise `was_correct`
is `true` exactly when the direction of the actual change equals
`predicted_direction`, with note `direction_validated`. -/
theorem tolerance_gated_validation (now tol actual : ℚ) (e : Entry)
    (_hcur : 0 < e.current_price) :
    (|(actual - e.current_price) / e.current_price| * 100 < tol →
      (applyValidation now tol actual e).was_correct = some false
      ∧ (applyValidation now tol actual e).validation_note
          = some "price_within_tolerance")
    ∧ (¬ (|(actual - e.current_price) / e.current_price| * 100 < tol) →
      ((applyValidation now tol actual e).was_correct = some true ↔
        (if actual - e.current_price > 0 then "up" else "down")
          = e.predicted_direction)
      ∧ (applyValidation now tol actual e).validation_note
          = some "direction_validated") := by
  have habs : |(actual - e.current_price) / e.current_price * 100|
      = |(actual - e.current_price) / e.current_price| * 100 := by
    rw [abs_mul]
    norm_num
  constructor
  · intro h
    unfold applyValidation
    rw [if_pos (by rw [habs]; exact h)]
    exact ⟨rfl, rfl⟩
  · intro h
    unfold applyValidation
    rw [if_neg (by rw [habs]; exact h)]
    refine ⟨?_, rfl⟩
    simp only [Option.some_inj, decide_eq_true_eq]

/-- Witness for C1: creation price 100, realized price 102, tolerance 0.1;
the change is 2 % ≥ 0.1 %, the actual direction is up and matches. -/
theorem tolerance_gated_validation_witness :
    (0 : ℚ) < pendingEntry.current_price
    ∧ ((|((102 : ℚ) - pendingEntry.current_price) / pendingEntry.current_price| * 100
          < settings_DIRECTION_TOLERANCE_PCT →
        (applyValidation 0 settings_DIRECTION_TOLERANCE_PCT 102 pendingEntry).was_correct
          = some false
        ∧ (applyValidation 0 settings_DIRECTION_TOLERANCE_PCT 102 pendingEntry).validation_note
          = some "price_within_tolerance")
      ∧ (¬ (|((102 : ℚ) - pendingEntry.current_price) / pendingEntry.current_price| * 100
          < settings_DIRECTION_TOLERANCE_PCT) →
        ((applyValidation 0 settings_DIRECTION_TOLERANCE_PCT 102 pendingEntry).was_correct
            = some true ↔
          (if (102 : ℚ) - pendingEntry.current_price > 0 then "up" else "down")
            = pendingEntry.predicted_direction)
        ∧ (applyValidation 0 settings_DIRECTION_TOLERANCE_PCT 102 pendingEntry).validation_note
          = some "direction_validated")) :=
  ⟨by decide,
   tolerance_gated_validation 0 settings_DIRECTION_TOLERANCE_PCT 102 pendingEntry (by decide)⟩

/-- C10: the zero case of the direction sign resolves to `"down"` at both
decision sites: `generate_prediction` with `predicted_price` equal to
`current_price`, and `validate_predictions` with a zero actual change —
which reaches the direction branch only when the tolerance is 0; any
positive tolerance routes a zero change to `price_within_tolerance`. -/
theorem zero_change_resolves_down (x now tol : ℚ) (e : Entry)
    (_hcur : 0 < e.current_price) (htol : 0 < tol) :
    predDirection x x = "down"
    ∧ (applyValidation now 0 e.current_price e).validation_note
        = some "direction_validated"
    ∧ (applyValidation now 0 e.current_price e).was_correct
        = some (decide ("down" = e.predicted_direction))
    ∧ (applyValidation now tol e.current_price e).validation_note
        = some "price_within_tolerance" := by
  have hch : e.current_price - e.current_price = 0 := sub_self _
  refine ⟨?_, ?_, ?_, ?_⟩
  · unfold predDirection
    rw [if_neg (lt_irrefl x)]
  · unfold applyValidation
    rw [hch]
    simp
  · unfold applyValidation
    rw [hch]
    simp
  · unfold applyValidation
    rw [hch]
    rw [if_pos (by rw [zero_div, zero_mul, abs_zero]; exact htol)]

/-- Witness for C10 at tolerance 0.1 and the concrete pending entry. -/
theorem zero_change_resolves_down_witness :
    (0 : ℚ) < pendingEntry.current_price ∧ (0 : ℚ) < settings_DIRECTION_TOLERANCE_PCT
    ∧ (predDirection 7 7 = "down"
      ∧ (applyValidation 0 0 pendingEntry.current_price pendingEntry).validation_note
          = some "direction_validated"
      ∧ (applyValidation 0 0 pendingEntry.current_price pendingEntry).was_correct
          = some (decide ("down" = pendingEntry.predicted_direction))
      ∧ (applyValidation 0 settings_DIRECTION_TOLERANCE_PCT
            pendingEntry.current_price pendingEntry).validation_note
          = some "price_within_tolerance") :=
  ⟨by decide, by norm_num,
   zero_change_resolves_down 7 0 settings_DIRECTION_TOLERANCE_PCT pendingEntry
     (by decide) (by norm_num)⟩

theorem processEntry_validated_eq (pd : List (ℤ × ℚ)) (cp : Option ℚ)
    (now tol : ℚ) (parse : String → Option ℚ) (e : Entry)
    (hval : e.was_correct ≠ none) :
    processEntry pd cp now tol parse e = e := by
  unfold processEntry
  rw [if_pos hval]

/-- C2: a record whose `was_correct` is already set is left untouched by
any later `validate_predictions` pass, whatever price history was fetched
and whether or not a fallback `current_price` was supplied: the
pending-to-validated transition is one-way. -/
theorem validated_records_immutable (fetched : Option (List (ℤ × ℚ)))
    (cp : Option ℚ) (now tol : ℚ) (parse : String → Option ℚ)
    (l : List Entry) (i : ℕ) (e : Entry)
    (hget : l[i]? = some e) (hval : e.was_correct ≠ none) :
    (validate_predictions fetched cp now tol parse l)[i]? = some e := by
  have hpe : ∀ pd cp', processEntry pd cp' now tol parse e = e :=
    fun pd cp' => processEntry_validated_eq pd cp' now tol parse e hval
  cases fetched with
  | some hist =>
    unfold validate_predictions
    rw [List.getElem?_map, hget]
    simp [hpe]
  | none =>
    cases cp with
    | none => simpa [validate_predictions] using hget
    | some p =>
      unfold validate_predictions
      rw [List.getElem?_map, hget]
      simp [hpe]

/-- Witness for C2: a one-record ledger holding a validated entry survives
a pass with a fetched window and a fallback price unchanged. -/
theorem validated_records_immutable_witness :
    ([validatedTenErrEntry][0]? = some validatedTenErrEntry)
    ∧ (validatedTenErrEntry.was_correct ≠ none)
    ∧ (validate_predictions (some [(1735694100000, 102)]) (some 99) 1735694200
        settings_DIRECTION_TOLERANCE_PCT (fun _ => none)
        [validatedTenErrEntry])[0]? = some validatedTenErrEntry :=
  ⟨by decide, by decide,
   validated_records_immutable (some [(1735694100000, 102)]) (some 99) 1735694200
     settings_DIRECTION_TOLERANCE_PCT (fun _ => none)
     [validatedTenErrEntry] 0 validatedTenErrEntry (by decide) (by decide)⟩

/-- C4: a pending record with no realized price within ±5 minutes of its
target is validated with the fallback `current_price` exactly when the
wall clock has reached the target time and a fallback was supplied, and is
otherwise left unchanged; and a failed price-history fetch with no
fallback makes the whole pass a no-op. -/
theorem fallback_and_failure_semantics (hist : List (ℤ × ℚ)) (cp : Option ℚ)
    (now tol : ℚ) (parse : String → Option ℚ) (l : List Entry) (e : Entry)
    (t : ℤ) (price : ℚ)
    (hpend : e.was_correct = none)
    (htms : e.target_timestamp_ms = some t) (ht0 : t ≠ 0)
    (hnomatch : ∀ p ∈ buildPriceDict hist,
      ¬ (|(p.1 : ℚ) - (t : ℚ)| ≤ 5 * 60 * 1000)) :
    validate_predictions none none now tol parse l = l
    ∧ validate_predictions (some hist) cp now tol parse l
        = l.map (processEntry (buildPriceDict hist) cp now tol parse)
    ∧ (cp = some price → now ≥ (t : ℚ) / 1000 →
        processEntry (buildPriceDict hist) cp now tol parse e
          = applyValidation now tol price e
        ∧ (applyValidation now tol price e).was_correct ≠ none)
    ∧ (cp = none → processEntry (buildPriceDict hist) cp now tol parse e = e)
    ∧ (now < (t : ℚ) / 1000 →
        processEntry (buildPriceDict hist) cp now tol parse e = e) := by
  have hfind : (buildPriceDict hist).find?
      (fun q => |(q.1 : ℚ) - (t : ℚ)| ≤ 5 * 60 * 1000) = none :=
    List.find?_eq_none.mpr (fun x hx => by simpa using hnomatch x hx)
  have hbody : ∀ cp', processEntry (buildPriceDict hist) cp' now tol parse e
      = match (if now ≥ (t : ℚ) / 1000 then cp' else none) with
        | none => e
        | some a => applyValidation now tol a e := by
    intro cp'
    unfold processEntry
    rw [if_neg (by simp [hpend])]
    rw [htms]
    simp only [ht0, if_false, reduceIte]
    rw [hfind]
    rfl
  have hsome : (applyValidation now tol price e).was_correct ≠ none := by
    simp only [applyValidation]
    split_ifs <;> simp
  refine ⟨rfl, rfl, ?_, ?_, ?_⟩
  · intro hcp hnow
    exact ⟨by rw [hbody cp, if_pos hnow, hcp], hsome⟩
  · intro hcp
    rw [hbody cp, hcp, ite_self]
  · intro hnow
    rw [hbody cp, if_neg (not_le.mpr hnow)]

/-- Witness for C4: one pending record, a price window whose only point is
far from the target, wall clock past the target, fallback price 99. -/
theorem fallback_and_failure_semantics_witness :
    (pendingEntry.was_correct = none)
    ∧ (pendingEntry.target_timestamp_ms = some 1735693800000)
    ∧ ((1735693800000 : ℤ) ≠ 0)
    ∧ (∀ p ∈ buildPriceDict [((1 : ℤ), (50 : ℚ))],
        ¬ (|(p.1 : ℚ) - ((1735693800000 : ℤ) : ℚ)| ≤ 5 * 60 * 1000))
    ∧ (validate_predictions none none 2000000000 settings_DIRECTION_TOLERANCE_PCT
          (fun _ => none) [pendingEntry] = [pendingEntry]
      ∧ validate_predictions (some [((1 : ℤ), (50 : ℚ))]) (some 99) 2000000000
          settings_DIRECTION_TOLERANCE_PCT (fun _ => none) [pendingEntry]
          = [pendingEntry].map (processEntry (buildPriceDict [((1 : ℤ), (50 : ℚ))])
              (some 99) 2000000000 settings_DIRECTION_TOLERANCE_PCT (fun _ => none))
      ∧ (some 99 = some (99 : ℚ) →
          (2000000000 : ℚ) ≥ ((1735693800000 : ℤ) : ℚ) / 1000 →
          processEntry (buildPriceDict [((1 : ℤ), (50 : ℚ))]) (some 99) 2000000000
              settings_DIRECTION_TOLERANCE_PCT (fun _ => none) pendingEntry
            = applyValidation 2000000000 settings_DIRECTION_TOLERANCE_PCT 99 pendingEntry
          ∧ (applyValidation 2000000000 settings_DIRECTION_TOLERANCE_PCT 99
              pendingEntry).was_correct ≠ none)
      ∧ (some (99 : ℚ) = none →
          processEntry (buildPriceDict [((1 : ℤ), (50 : ℚ))]) (some 99) 2000000000
            settings_DIRECTION_TOLERANCE_PCT (fun _ => none) pendingEntry = pendingEntry)
      ∧ ((2000000000 : ℚ) < ((1735693800000 : ℤ) : ℚ) / 1000 →
          processEntry (buildPriceDict [((1 : ℤ), (50 : ℚ))]) (some 99) 2000000000
            settings_DIRECTION_TOLERANCE_PCT (fun _ => none) pendingEntry = pendingEntry)) :=
  ⟨by decide, by decide, by decide,
   by
     intro p hp
     simp [buildPriceDict] at hp
     rw [hp, abs_of_nonpos (by norm_num)]
     norm_num,
   fallback_and_failure_semantics [((1 : ℤ), (50 : ℚ))] (some 99) 2000000000
     settings_DIRECTION_TOLERANCE_PCT (fun _ => none) [pendingEntry] pendingEntry
     1735693800000 99 (by decide) (by decide) (by decide)
     (by
       intro p hp
       simp [buildPriceDict] at hp
       rw [hp, abs_of_nonpos (by norm_num)]
       norm_num)⟩

/-! ### Accuracy summary -/

/-- C5 counterexample: on a one-record, all-pending ledger the summary
reports `total_predictions = 0` although the snapshot holds one record,
and the contract fields `correct_count` and `avg_error` are absent. -/
theorem accuracy_stats_counterexample :
    (get_prediction_accuracy [pendingEntry]).total_predictions = 0
    ∧ (get_prediction_history [pendingEntry]).length = 1
    ∧ (get_prediction_accuracy [pendingEntry]).correct_count = none
    ∧ (get_prediction_accuracy [pendingEntry]).avg_error = none :=
  ⟨rfl, rfl, rfl, rfl⟩

/-- C5 amended: with at least one validated record the summary carries all
contract fields, `accuracy = round(100 * correct / validated, 1)` (never
NaN or an error) and `total_predictions` equal to the snapshot size
including pending records; with no validated record the summary is the
fixed three-field record `{accuracy: 0, total_predictions: 0,
validated_count: 0}`, whose total ignores pending records and which omits
`correct_count` and `avg_error`. -/
theorem accuracy_stats_amended (l : List Entry) :
    ((l.filter (fun p => p.was_correct.isSome)).isEmpty = true →
      get_prediction_accuracy l =
        { accuracy := 0, total_predictions := 0, validated_count := 0,
          correct_count := none, avg_error := none })
    ∧ ((l.filter (fun p => p.was_correct.isSome)).isEmpty = false →
      (get_prediction_accuracy l).accuracy
        = pyRound ((((l.filter (fun p => p.was_correct.isSome)).filter
            (fun p => p.was_correct = some true)).length : ℚ)
            / ((l.filter (fun p => p.was_correct.isSome)).length : ℚ) * 100) 1
      ∧ (get_prediction_accuracy l).total_predictions = l.length
      ∧ (get_prediction_accuracy l).validated_count
          = (l.filter (fun p => p.was_correct.isSome)).length
      ∧ (get_prediction_accuracy l).correct_count
          = some ((l.filter (fun p => p.was_correct.isSome)).filter
              (fun p => p.was_correct = some true)).length
      ∧ (get_prediction_accuracy l).avg_error ≠ none) := by
  constructor
  · intro h
    simp only [get_prediction_accuracy, h, if_true]
  · intro h
    simp only [get_prediction_accuracy, h, Bool.false_eq_true, if_false]
    simp

/-- Witness for C5 (amended) at a mixed one-validated, one-pending
ledger. -/
theorem accuracy_stats_amended_witness :
    (([validatedTenErrEntry, pendingEntry].filter
        (fun p => p.was_correct.isSome)).isEmpty = true →
      get_prediction_accuracy [validatedTenErrEntry, pendingEntry] =
        { accuracy := 0, total_predictions := 0, validated_count := 0,
          correct_count := none, avg_error := none })
    ∧ (([validatedTenErrEntry, pendingEntry].filter
        (fun p => p.was_correct.isSome)).isEmpty = false →
      (get_prediction_accuracy [validatedTenErrEntry, pendingEntry]).accuracy
        = pyRound (((([validatedTenErrEntry, pendingEntry].filter
            (fun p => p.was_correct.isSome)).filter
            (fun p => p.was_correct = some true)).length : ℚ)
            / (([validatedTenErrEntry, pendingEntry].filter
                (fun p => p.was_correct.isSome)).length : ℚ) * 100) 1
      ∧ (get_prediction_accuracy [validatedTenErrEntry, pendingEntry]).total_predictions
          = [validatedTenErrEntry, pendingEntry].length
      ∧ (get_prediction_accuracy [validatedTenErrEntry, pendingEntry]).validated_count
          = ([validatedTenErrEntry, pendingEntry].filter
              (fun p => p.was_correct.isSome)).length
      ∧ (get_prediction_accuracy [validatedTenErrEntry, pendingEntry]).correct_count
          = some (([validatedTenErrEntry, pendingEntry].filter
              (fun p => p.was_correct.isSome)).filter
              (fun p => p.was_correct = some true)).length
      ∧ (get_prediction_accuracy [validatedTenErrEntry, pendingEntry]).avg_error
          ≠ none) :=
  accuracy_stats_amended [validatedTenErrEntry, pendingEntry]

/-- The claim's reading of `avg_error` (arithmetic mean of `error_amount`
over exactly the validated entries whose `error_amount` is non-null, zero
errors included), for comparison with the code's truthiness filter. -/
def claimed_avg_error (l : List Entry) : Option ℚ :=
  let errs := (l.filter (fun p => p.was_correct.isSome)).filterMap
    (fun p => p.error_amount)
  if errs.isEmpty then none else some (errs.sum / errs.length)

/-- C6 counterexample: a ledger with two validated entries of errors 0 and
10.  The claimed mean over non-null errors is 5, but the code filters with
`if p["error_amount"]`, which drops the zero error and yields 10. -/
theorem avg_error_excludes_zero_counterexample :
    (get_prediction_accuracy [validatedZeroErrEntry, validatedTenErrEntry]).avg_error
      = some (some 10)
    ∧ claimed_avg_error [validatedZeroErrEntry, validatedTenErrEntry] = some 5
    ∧ ((10 : ℚ) ≠ 5) := by
  refine ⟨?_, ?_, by norm_num⟩
  · norm_num [get_prediction_accuracy, validatedZeroErrEntry, validatedTenErrEntry,
      List.filter, List.filterMap, pyRound, rnd]
  · norm_num [claimed_avg_error, validatedZeroErrEntry, validatedTenErrEntry,
      List.filter, List.filterMap]

/-- C6 amended: with at least one validated record, `avg_error` is the
rounded mean of `error_amount` over the validated entries whose error is
truthy — non-null **and non-zero** — and is NaN (modelled `none`) when
every validated error is null or zero. -/
theorem avg_error_truthy_mean (l : List Entry)
    (h : (l.filter (fun p => p.was_correct.isSome)).isEmpty = false) :
    (get_prediction_accuracy l).avg_error
      = some (
        if ((l.filter (fun p => p.was_correct.isSome)).filterMap (fun p =>
            match p.error_amount with
            | some err => if err = 0 then none else some err
            | none => none)).isEmpty then none
        else some (pyRound
          ((((l.filter (fun p => p.was_correct.isSome)).filterMap (fun p =>
            match p.error_amount with
            | some err => if err = 0 then none else some err
            | none => none)).sum)
          / (((l.filter (fun p => p.was_correct.isSome)).filterMap (fun p =>
            match p.error_amount with
            | some err => if err = 0 then none else some err
            | none => none)).length : ℚ)) 2)) := by
  simp only [get_prediction_accuracy, h, Bool.false_eq_true, if_false]

/-- Witness for C6 (amended) at the two-validated-entry ledger. -/
theorem avg_error_truthy_mean_witness :
    ([validatedZeroErrEntry, validatedTenErrEntry].filter
        (fun p => p.was_correct.isSome)).isEmpty = false
    ∧ (get_prediction_accuracy [validatedZeroErrEntry, validatedTenErrEntry]).avg_error
      = some (
        if (([validatedZeroErrEntry, validatedTenErrEntry].filter
            (fun p => p.was_correct.isSome)).filterMap (fun p =>
            match p.error_amount with
            | some err => if err = 0 then none else some err
            | none => none)).isEmpty then none
        else some (pyRound
          (((([validatedZeroErrEntry, validatedTenErrEntry].filter
            (fun p => p.was_correct.isSome)).filterMap (fun p =>
            match p.error_amount with
            | some err => if err = 0 then none else some err
            | none => none)).sum)
          / ((([validatedZeroErrEntry, validatedTenErrEntry].filter
            (fun p => p.was_correct.isSome)).filterMap (fun p =>
            match p.error_amount with
            | some err => if err = 0 then none else some err
            | none => none)).length : ℚ)) 2)) :=
  ⟨rfl, avg_error_truthy_mean [validatedZeroErrEntry, validatedTenErrEntry] rfl⟩

/-! ### Prediction confidence -/

/-- C7 counterexample: price 100 predicted to 101 gives price-based
confidence 60; an agreeing classifier at probability 0.99 is adopted and
the stored confidence is 99, outside [50, 95]. -/
theorem confidence_cap_counterexample :
    genConfidence 101 100 (some ("up", 99)) = 99 ∧ ¬ ((99 : ℚ) ≤ 95) := by
  constructor
  · have h1 : priceConfidence 101 100 = 60 := by
      unfold priceConfidence
      rw [show |(101:ℚ) - 100| = 1 by
        rw [show (101:ℚ) - 100 = 1 by norm_num]; norm_num]
      norm_num
    unfold genConfidence
    rw [h1]
    unfold combineConfidence predDirection
    norm_num [pyRound, rnd]
  · norm_num

/-- C7 amended: the stored confidence lies in [50, 100]; the price-based
default `min(95, 50 + pct * 10)` lies in [50, 95]; a classifier confidence
(at most 100, as `100 * max predict_proba`) is adopted exactly when its
direction agrees with the price-based one and it is strictly higher —
which can exceed 95 — and the price-based direction is kept in all
cases. -/
theorem confidence_bounds_amended (predicted current cconf : ℚ) (cdir : String)
    (hcur : 0 < current) (_h0 : 0 ≤ cconf) (h100 : cconf ≤ 100) :
    (50 : ℚ) ≤ genConfidence predicted current none
    ∧ genConfidence predicted current none ≤ 95
    ∧ (50 : ℚ) ≤ genConfidence predicted current (some (cdir, cconf))
    ∧ genConfidence predicted current (some (cdir, cconf)) ≤ 100
    ∧ (¬ cdir = predDirection predicted current →
        genConfidence predicted current (some (cdir, cconf))
          = pyRound (priceConfidence predicted current) 1)
    ∧ (cdir = predDirection predicted current →
        priceConfidence predicted current < cconf →
        genConfidence predicted current (some (cdir, cconf)) = pyRound cconf 1)
    ∧ genDirection predicted current (some (cdir, cconf))
        = predDirection predicted current := by
  have hx : (0:ℚ) ≤ |predicted - current| / current * 100 * 10 := by positivity
  have hlo : (50:ℚ) ≤ priceConfidence predicted current := by
    unfold priceConfidence
    exact le_min (by norm_num) (by linarith)
  have hhi : priceConfidence predicted current ≤ 95 := min_le_left _ _
  have hclo : (50:ℚ) ≤ combineConfidence (priceConfidence predicted current)
      (predDirection predicted current) cdir cconf := by
    unfold combineConfidence
    split_ifs with h
    · linarith [h.2]
    · exact hlo
  have hchi : combineConfidence (priceConfidence predicted current)
      (predDirection predicted current) cdir cconf ≤ 100 := by
    unfold combineConfidence
    split_ifs with h
    · exact h100
    · linarith
  refine ⟨?_, ?_, ?_, ?_, ?_, ?_, rfl⟩
  · have := le_pyRound_of_le (priceConfidence predicted current) 1 50
      (by exact_mod_cast hlo)
    exact_mod_cast this
  · have := pyRound_le_of_le (priceConfidence predicted current) 1 95
      (by exact_mod_cast hhi)
    exact_mod_cast this
  · have := le_pyRound_of_le (combineConfidence (priceConfidence predicted current)
      (predDirection predicted current) cdir cconf) 1 50 (by exact_mod_cast hclo)
    exact_mod_cast this
  · have := pyRound_le_of_le (combineConfidence (priceConfidence predicted current)
      (predDirection predicted current) cdir cconf) 1 100 (by exact_mod_cast hchi)
    exact_mod_cast this
  · intro hne
    unfold genConfidence combineConfidence
    dsimp only
    rw [if_neg (by tauto)]
  · intro heq hgt
    unfold genConfidence combineConfidence
    dsimp only
    rw [if_pos ⟨heq, hgt⟩]

/-- Witness for C7 (amended) at predicted 101, current 100, agreeing
classifier at confidence 99. -/
theorem confidence_bounds_amended_witness :
    (0 : ℚ) < 100 ∧ (0 : ℚ) ≤ 99 ∧ (99 : ℚ) ≤ 100
    ∧ ((50 : ℚ) ≤ genConfidence 101 100 none
      ∧ genConfidence 101 100 none ≤ 95
      ∧ (50 : ℚ) ≤ genConfidence 101 100 (some ("up", 99))
      ∧ genConfidence 101 100 (some ("up", 99)) ≤ 100
      ∧ (¬ "up" = predDirection 101 100 →
          genConfidence 101 100 (some ("up", 99))
            = pyRound (priceConfidence 101 100) 1)
      ∧ ("up" = predDirection 101 100 →
          priceConfidence 101 100 < 99 →
          genConfidence 101 100 (some ("up", 99)) = pyRound 99 1)
      ∧ genDirection 101 100 (some ("up", 99)) = predDirection 101 100) :=
  ⟨by norm_num, by norm_num, by norm_num,
   confidence_bounds_amended 101 100 99 "up" (by norm_num) (by norm_num) (by norm_num)⟩

/-! ### Drift detection -/

theorem testedColumns_eq_map (ks : List ℚ → List ℚ → ℚ × ℚ)
    (refData curData : String → Option (List ℚ)) (cols : List String)
    (hAll : ∀ c ∈ cols, ∃ rv cv, refData c = some rv ∧ curData c = some cv
      ∧ rv.length > 0 ∧ cv.length > 0) :
    testedColumns ks refData curData cols
      = cols.map (fun c =>
          (c, { statistic := (ks ((refData c).getD []) ((curData c).getD [])).1,
                p_value := (ks ((refData c).getD []) ((curData c).getD [])).2,
                drifted := decide ((ks ((refData c).getD []) ((curData c).getD [])).2
                  < 5/100) : FeatureDrift })) := by
  induction cols with
  | nil => rfl
  | cons c cs ih =>
    obtain ⟨rv, cv, hr, hc, hrl, hcl⟩ := hAll c (List.mem_cons_self c cs)
    have htail := ih (fun x hx => hAll x (List.mem_cons_of_mem c hx))
    unfold testedColumns at htail ⊢
    rw [List.filterMap_cons, List.map_cons, htail, hr, hc]
    simp only [Option.getD_some]
    rw [if_pos ⟨hrl, hcl⟩]

/-- C8: in the KS-test fallback with a reference set, every requested
column present in both frames with non-empty values is marked drifted
exactly when its p-value is strictly below 0.05; when all requested
columns are tested the aggregate `drift_score` is the mean KS statistic
across the requested columns; and `drift_detected` holds exactly when the
score strictly exceeds the threshold. -/
theorem ks_fallback_drift_detection (ks : List ℚ → List ℚ → ℚ × ℚ)
    (refData curData : String → Option (List ℚ)) (threshold : ℚ)
    (cols : List String)
    (hAll : ∀ c ∈ cols, ∃ rv cv, refData c = some rv ∧ curData c = some cv
      ∧ rv.length > 0 ∧ cv.length > 0)
    (hne : cols ≠ []) :
    (∀ c fd,
      (c, fd) ∈ (simple_drift_detection ks refData curData threshold cols).feature_drifts →
      (fd.drifted = true ↔ fd.p_value < 5/100))
    ∧ (simple_drift_detection ks refData curData threshold cols).drift_score
        = (cols.map (fun c => (ks ((refData c).getD []) ((curData c).getD [])).1)).sum
          / (cols.length : ℚ)
    ∧ ((simple_drift_detection ks refData curData threshold cols).drift_detected = true
        ↔ (simple_drift_detection ks refData curData threshold cols).drift_score
            > threshold) := by
  have htest := testedColumns_eq_map ks refData curData cols hAll
  have hempty : cols.isEmpty = false := by
    cases cols with
    | nil => exact absurd rfl hne
    | cons a as => rfl
  refine ⟨?_, ?_, ?_⟩
  · intro c fd hmem
    simp only [simple_drift_detection] at hmem
    rw [htest, List.mem_map] at hmem
    obtain ⟨a, ha, heq⟩ := hmem
    cases heq
    simp
  · simp only [simple_drift_detection, hempty, Bool.false_eq_true, if_false]
    rw [htest, List.map_map]
    rfl
  · simp only [simple_drift_detection]
    exact ⟨fun h => of_decide_eq_true h, fun h => decide_eq_true h⟩

/-- Witness for C8: one requested column, both frames holding one value,
a KS oracle returning statistic 0.5 and p-value 0.01; the score 0.5
exceeds the default threshold 0.3. -/
theorem ks_fallback_drift_detection_witness :
    (∀ c ∈ ["a"], ∃ rv cv,
      (fun _ : String => some [(1 : ℚ)]) c = some rv
      ∧ (fun _ : String => some [(2 : ℚ)]) c = some cv
      ∧ rv.length > 0 ∧ cv.length > 0)
    ∧ (["a"] ≠ ([] : List String))
    ∧ ((∀ c fd,
        (c, fd) ∈ (simple_drift_detection (fun _ _ => ((1:ℚ)/2, (1:ℚ)/100))
          (fun _ => some [(1 : ℚ)]) (fun _ => some [(2 : ℚ)])
          settings_DRIFT_THRESHOLD ["a"]).feature_drifts →
        (fd.drifted = true ↔ fd.p_value < 5/100))
      ∧ (simple_drift_detection (fun _ _ => ((1:ℚ)/2, (1:ℚ)/100))
          (fun _ => some [(1 : ℚ)]) (fun _ => some [(2 : ℚ)])
          settings_DRIFT_THRESHOLD ["a"]).drift_score
          = (["a"].map (fun c =>
              ((fun _ _ => ((1:ℚ)/2, (1:ℚ)/100))
                (((fun _ : String => some [(1 : ℚ)]) c).getD [])
                (((fun _ : String => some [(2 : ℚ)]) c).getD [])).1)).sum
            / ((["a"] : List String).length : ℚ)
      ∧ ((simple_drift_detection (fun _ _ => ((1:ℚ)/2, (1:ℚ)/100))
          (fun _ => some [(1 : ℚ)]) (fun _ => some [(2 : ℚ)])
          settings_DRIFT_THRESHOLD ["a"]).drift_detected = true
        ↔ (simple_drift_detection (fun _ _ => ((1:ℚ)/2, (1:ℚ)/100))
            (fun _ => some [(1 : ℚ)]) (fun _ => some [(2 : ℚ)])
            settings_DRIFT_THRESHOLD ["a"]).drift_score
            > settings_DRIFT_THRESHOLD)) :=
  ⟨fun c _ => ⟨[(1 : ℚ)], [(2 : ℚ)], rfl, rfl, by norm_num, by norm_num⟩,
   by simp,
   ks_fallback_drift_detection (fun _ _ => ((1:ℚ)/2, (1:ℚ)/100))
     (fun _ => some [(1 : ℚ)]) (fun _ => some [(2 : ℚ)])
     settings_DRIFT_THRESHOLD ["a"]
     (fun c _ => ⟨[(1 : ℚ)], [(2 : ℚ)], rfl, rfl, by norm_num, by norm_num⟩)
     (by simp)⟩

end CryptoSentinel
